import Mathlib

/-!
Shallow embedding of `src/cell_simulator.py` (the Cell/Food simulation core).

Real-valued Python floats are modelled as `ℝ`.  Every call to the `random`
module in the source is modelled as an explicit parameter of the operation
that draws it (`UpdateRand`, `SplitRand`, `TickRand`), so the operations are
deterministic functions of their inputs and the drawn values.
-/

open scoped Classical

namespace CellSim

/-! Configuration constants, from the CONFIG block of `cell_simulator.py`. -/

noncomputable def WIDTH : ℝ := 900

noncomputable def HEIGHT : ℝ := 600

noncomputable def FOOD_RADIUS : ℝ := 4

noncomputable def CELL_MIN_RADIUS : ℝ := 8

noncomputable def CELL_MAX_RADIUS : ℝ := 18

noncomputable def CELL_BASE_SPEED : ℝ := 1.0

noncomputable def ENERGY_LOSS_PER_SEC : ℝ := 1.0

noncomputable def ENERGY_FROM_FOOD : ℝ := 20

noncomputable def SPLIT_ENERGY_THRESHOLD : ℝ := 60

noncomputable def SPLIT_ENERGY_COST : ℝ := 30

noncomputable def MAX_ENERGY : ℝ := 100

def MAX_FOOD : ℕ := 200

noncomputable def CELL_SENSE_RADIUS : ℝ := 120

noncomputable def CELL_MAX_TURN : ℝ := 0.25

/-- Local constant `margin = 5` from the wall-bounce block of `Cell.update`. -/
noncomputable def margin : ℝ := 5

/-! Entities. -/

/-- `class Food`: a passive point with a position. -/
structure Food where
  x : ℝ
  y : ℝ

/-- `class Cell`: the fields assigned in `Cell.__init__`.
`color` is an RGB triple of Python ints, modelled as `ℤ × ℤ × ℤ`;
`trail` is a `deque(maxlen=8)` of positions, modelled as a list
(most recent last) with FIFO eviction in `trailAppend`. -/
structure Cell where
  x : ℝ
  y : ℝ
  radius : ℝ
  base_radius : ℝ
  angle : ℝ
  speed : ℝ
  energy : ℝ
  color : ℤ × ℤ × ℤ
  trail : List (ℝ × ℝ)
  time_offset : ℝ

/-- The `Cell(x, y, radius=r)` constructor path with an explicit radius (the
one taken by `Cell.split`); the constructor's random draws (`angle`, the
initial `energy = uniform(20, 50)`, the random `color`, `time_offset`) are
explicit arguments.  `speed = CELL_BASE_SPEED * (1 + (CELL_MAX_RADIUS - radius)
/ (CELL_MAX_RADIUS * 2))`, fixed at construction. -/
noncomputable def mkCell (x y radius angle energy0 : ℝ) (color0 : ℤ × ℤ × ℤ)
    (toff : ℝ) : Cell :=
  { x := x
    y := y
    radius := radius
    base_radius := radius
    angle := angle
    speed := CELL_BASE_SPEED * (1 + (CELL_MAX_RADIUS - radius) / (CELL_MAX_RADIUS * 2))
    energy := energy0
    color := color0
    trail := []
    time_offset := toff }

/-! Python numeric primitives. -/

/-- Python `a % m` on floats (for `m > 0`): `a - m * floor(a / m)`. -/
noncomputable def pyMod (a m : ℝ) : ℝ := a - m * (Int.floor (a / m) : ℝ)

/-- Python `int(x)`: truncation toward zero. -/
noncomputable def pyInt (x : ℝ) : ℤ := if 0 ≤ x then Int.floor x else Int.ceil x

/-- `math.atan2 y x` semantics over the reals (signed zero not modelled). -/
noncomputable def pyAtan2 (y x : ℝ) : ℝ :=
  if 0 < x then Real.arctan (y / x)
  else if x < 0 then
    (if 0 ≤ y then Real.arctan (y / x) + Real.pi else Real.arctan (y / x) - Real.pi)
  else
    (if 0 < y then Real.pi / 2 else if y < 0 then -(Real.pi / 2) else 0)

/-- Line 107 of the source: `(desired - angle + pi) % (2*pi) - pi`,
the signed angular difference wrapped into `[-pi, pi)`. -/
noncomputable def wrapDiff (d : ℝ) : ℝ := pyMod (d + Real.pi) (2 * Real.pi) - Real.pi

/-! The per-update random draws of `Cell.update` (lines 104, 118, 120, 122,
124): the random-walk perturbation and the four wall-bounce redraw angles. -/

structure UpdateRand where
  wander : ℝ
  bounceLeft : ℝ
  bounceRight : ℝ
  bounceTop : ℝ
  bounceBottom : ℝ

/-! `Cell.update`, decomposed into its stages (lines 89-136). -/

/-- Lines 90-92: energy decay then the upper clamp at `MAX_ENERGY`. -/
noncomputable def decayClamp (e dt : ℝ) : ℝ :=
  let e1 := e - ENERGY_LOSS_PER_SEC * dt
  if e1 > MAX_ENERGY then MAX_ENERGY else e1

/-- Lines 95-101: scan `foods`, tracking the nearest food within
`CELL_SENSE_RADIUS` by squared distance (`min_d` starts at infinity, so the
first in-range item always replaces the empty accumulator). -/
noncomputable def senseTarget (c : Cell) (foods : List Food) : Option (Food × ℝ) :=
  foods.foldl (fun acc f =>
    let d := (f.x - c.x) ^ 2 + (f.y - c.y) ^ 2
    match acc with
    | none => if d ≤ CELL_SENSE_RADIUS ^ 2 then some (f, d) else acc
    | some (_, md) => if d < md ∧ d ≤ CELL_SENSE_RADIUS ^ 2 then some (f, d) else acc) none

/-- Lines 103-109: the new heading.  No target: add the random-walk draw.
Target found: turn toward it by the wrapped difference clamped to
`±CELL_MAX_TURN`. -/
noncomputable def steer (c : Cell) (foods : List Food) (r : UpdateRand) : ℝ :=
  match senseTarget c foods with
  | none => c.angle + r.wander
  | some (t, _) =>
    let desired := pyAtan2 (t.y - c.y) (t.x - c.x)
    let turn := max (-CELL_MAX_TURN) (min CELL_MAX_TURN (wrapDiff (desired - c.angle)))
    c.angle + turn

/-- Line 112: `x += cos(angle) * speed`. -/
noncomputable def moveX (c : Cell) (a : ℝ) : ℝ := c.x + Real.cos a * c.speed

/-- Line 113: `y += sin(angle) * speed`. -/
noncomputable def moveY (c : Cell) (a : ℝ) : ℝ := c.y + Real.sin a * c.speed

/-- Line 127: `trail.append(pos)` on a `deque(maxlen=8)`. -/
def trailAppend (tr : List (ℝ × ℝ)) (p : ℝ × ℝ) : List (ℝ × ℝ) :=
  let tr1 := tr ++ [p]
  if tr1.length > 8 then tr1.drop (tr1.length - 8) else tr1

/-- Lines 90-127 of `Cell.update`: everything before the eating scan.
Decay+clamp energy, steer, move, clamp at each wall (redrawing the heading
from the matching bounce draw when a wall is hit), append to the trail. -/
noncomputable def preEat (c : Cell) (dt : ℝ) (foods : List Food) (r : UpdateRand) : Cell :=
  let a1 := steer c foods r
  let x1 := moveX c a1
  let y1 := moveY c a1
  let x2 := if x1 < margin then margin else x1
  let a2 := if x1 < margin then r.bounceLeft else a1
  let x3 := if x2 > WIDTH - margin then WIDTH - margin else x2
  let a3 := if x2 > WIDTH - margin then r.bounceRight else a2
  let y2 := if y1 < margin then margin else y1
  let a4 := if y1 < margin then r.bounceTop else a3
  let y3 := if y2 > HEIGHT - margin then HEIGHT - margin else y2
  let a5 := if y2 > HEIGHT - margin then r.bounceBottom else a4
  { c with
    x := x3
    y := y3
    angle := a5
    energy := decayClamp c.energy dt
    trail := trailAppend c.trail (x3, y3) }

/-- Lines 130-136: scan the foods in order; delete the first one whose
squared distance to the cell is at most `(radius + FOOD_RADIUS)^2` and stop.
Returns the remaining food list if one was eaten, `none` otherwise. -/
noncomputable def eatScan (c : Cell) : List Food → Option (List Food)
  | [] => none
  | f :: rest =>
    if (f.x - c.x) ^ 2 + (f.y - c.y) ^ 2 ≤ (c.radius + FOOD_RADIUS) ^ 2 then some rest
    else
      match eatScan c rest with
      | some rest1 => some (f :: rest1)
      | none => none

/-- `Cell.update(dt, foods, all_cells, time)` (lines 89-136).  Returns the
updated cell, the updated food list, and the `"ate"` signal as a `Bool`.
(`all_cells` and `time` are unused by the source body.) -/
noncomputable def update (c : Cell) (dt : ℝ) (foods : List Food) (r : UpdateRand) :
    Cell × List Food × Bool :=
  let c1 := preEat c dt foods r
  match eatScan c1 foods with
  | some foods1 => ({ c1 with energy := c1.energy + ENERGY_FROM_FOOD }, foods1, true)
  | none => (c1, foods, false)

/-! `Cell.can_split`, `Cell.split`, `Cell.is_dead` (lines 138-159). -/

/-- Line 139: `energy >= SPLIT_ENERGY_THRESHOLD and radius >= CELL_MIN_RADIUS + 1`. -/
def canSplit (c : Cell) : Prop :=
  SPLIT_ENERGY_THRESHOLD ≤ c.energy ∧ CELL_MIN_RADIUS + 1 ≤ c.radius

/-- The random draws of `Cell.split` (lines 147-154) plus the child
constructor's own draws. -/
structure SplitRand where
  offsetX : ℝ
  offsetY : ℝ
  childAngle : ℝ
  childEnergy0 : ℝ
  childColor0 : ℤ × ℤ × ℤ
  childTimeOffset : ℝ
  jitterR : ℤ
  jitterG : ℤ
  jitterB : ℤ

/-- `Cell.split` (lines 141-156).  Returns the parent's new state and the
optional child.  Lines 142-143 compute `energy/2 - SPLIT_ENERGY_COST/2`
twice (`child_energy` and the parent's new energy); if the parent's new
energy is below 5 the abort path adds `child_energy` back and returns no
child; otherwise a child is constructed at a random offset with radius
`max(CELL_MIN_RADIUS, int(radius * 0.9))`, energy `max(5, child_energy)`,
and the parent's color jittered per channel and clamped to `[0, 255]`. -/
noncomputable def split (c : Cell) (r : SplitRand) : Cell × Option Cell :=
  let child_energy := c.energy / 2 - SPLIT_ENERGY_COST / 2
  let e1 := c.energy / 2 - SPLIT_ENERGY_COST / 2
  if e1 < 5 then ({ c with energy := e1 + child_energy }, none)
  else
    let parent := { c with energy := e1 }
    let nx := c.x + r.offsetX
    let ny := c.y + r.offsetY
    let child0 := mkCell nx ny (max CELL_MIN_RADIUS ((pyInt (c.radius * 0.9) : ℤ) : ℝ))
      r.childAngle r.childEnergy0 r.childColor0 r.childTimeOffset
    let child := { child0 with
      energy := max 5 child_energy
      color := (min 255 (max 0 (c.color.1 + r.jitterR)),
                min 255 (max 0 (c.color.2.1 + r.jitterG)),
                min 255 (max 0 (c.color.2.2 + r.jitterB))) }
    (parent, some child)

/-- Line 159: `energy <= 0 or radius <= 0`. -/
def isDead (c : Cell) : Prop := c.energy ≤ 0 ∨ c.radius ≤ 0

/-! The non-paused block of the main loop (lines 244-258): the per-cell pass
collecting children and dead cells, then removal of the dead and appending
of the children. -/

/-- Per-cell random draws of one pass iteration: the update draws, the
`random.random()` reproduction trial, and the split draws. -/
structure TickRand where
  upd : UpdateRand
  trial : ℝ
  spl : SplitRand

/-- Lines 248-253 for one cell: update it against the current food list,
then, if it can split and the trial succeeds, call `split` (which also
mutates the parent).  Returns the cell's final state for this tick, the
food list after its update, and the optional child. -/
noncomputable def processCell (dt : ℝ) (c : Cell) (foods : List Food) (r : TickRand) :
    Cell × List Food × Option Cell :=
  let u := update c dt foods r.upd
  if canSplit u.1 ∧ r.trial < 0.02 then
    ((split u.1 r.spl).1, u.2.1, (split u.1 r.spl).2)
  else
    (u.1, u.2.1, none)

/-- Result of the per-cell pass: the updated states of the original cells in
order, the food list after the pass, the children collected in the
`new_cells` side buffer, and the number of successful splits (the amount
added to `total_births`). -/
structure PassResult where
  updated : List Cell
  foods : List Food
  children : List Cell
  births : ℕ

/-- Lines 247-255: iterate over the snapshot of `cells`, threading the
shared food list (so a food deleted by an earlier cell is invisible to
later cells), collecting children and counting births.  `rs i` supplies the
random draws of the `i`-th iteration. -/
noncomputable def runPass (dt : ℝ) (cells : List Cell) (foods : List Food)
    (rs : ℕ → TickRand) (i : ℕ) : PassResult :=
  match cells with
  | [] => ⟨[], foods, [], 0⟩
  | c :: rest =>
    let p := processCell dt c foods (rs i)
    let r := runPass dt rest p.2.1 rs (i + 1)
    ⟨p.1 :: r.updated, r.foods, p.2.2.toList ++ r.children,
      (if p.2.2.isSome then 1 else 0) + r.births⟩

/-- Lines 244-258: the whole non-paused tick.  After the pass, the dead
cells are removed (the source's filter by `dead_indices` keeps exactly the
updated cells that are not dead, since the index set is
`{i | cells[i].is_dead()}`), and only then are the children appended. -/
noncomputable def tick (dt : ℝ) (cells : List Cell) (foods : List Food)
    (rs : ℕ → TickRand) : List Cell × List Food × ℕ :=
  let r := runPass dt cells foods rs 0
  ((r.updated.filter fun c => !(decide (isDead c))) ++ r.children, r.foods, r.births)

/-! The food-spawning event handlers of the main loop (lines 227-232). -/

/-- Lines 230-232: a left mouse click appends one food item at the cursor. -/
def spawnClick (foods : List Food) (mx my : ℝ) : List Food := foods ++ [⟨mx, my⟩]

/-- Lines 227-229: the F key appends ten food items at random positions
(`ps i` supplies the `i`-th drawn position). -/
def spawnKeyF (foods : List Food) (ps : Fin 10 → ℝ × ℝ) : List Food :=
  foods ++ (List.ofFn fun i : Fin 10 => ⟨(ps i).1, (ps i).2⟩)

end CellSim

namespace CellSim

/-! Concrete entities used by witnesses and counterexamples. -/

/-- A cell with energy 30 (post-split energy 0, below the viability
threshold 5), used to exercise the abort path of `split`. -/
noncomputable def cellD : Cell :=
  { x := 100
    y := 100
    radius := 10
    base_radius := 10
    angle := 0
    speed := 1
    energy := 30
    color := (120, 130, 140)
    trail := []
    time_offset := 0 }

/-- A cell with energy exactly `SPLIT_ENERGY_THRESHOLD = 60`. -/
noncomputable def cellE : Cell :=
  { cellD with energy := 60 }

/-- A cell with energy 70. -/
noncomputable def cellF : Cell :=
  { cellD with energy := 70 }

/-- Concrete random draws for `split`. -/
noncomputable def splitRandD : SplitRand :=
  { offsetX := 0
    offsetY := 0
    childAngle := 0
    childEnergy0 := 25
    childColor0 := (1, 2, 3)
    childTimeOffset := 0
    jitterR := 0
    jitterG := 0
    jitterB := 0 }

/-- Claim C1, counterexample: `cellD` has energy 30, so its post-split energy
`30/2 - 30/2 = 0` falls below 5 and `split` aborts with no child — but its
energy after the call is 0, not the pre-call 30: the claimed full refund does
not happen. -/
theorem c1_refund_counterexample :
    cellD.energy / 2 - SPLIT_ENERGY_COST / 2 < 5 ∧
      (split cellD splitRandD).2 = none ∧
      (split cellD splitRandD).1.energy ≠ cellD.energy := by
  have h : cellD.energy / 2 - SPLIT_ENERGY_COST / 2 < 5 := by
    norm_num [cellD, SPLIT_ENERGY_COST]
  refine ⟨h, ?_, ?_⟩
  · simp only [split]
    rw [if_pos h]
  · simp only [split]
    rw [if_pos h]
    norm_num [cellD, SPLIT_ENERGY_COST]

/-- Claim C1 (amended): for every cell whose post-split energy
`energy/2 - SPLIT_ENERGY_COST/2` would fall below 5, `split` returns no
child, and the cell's energy after the call equals its pre-call energy minus
`SPLIT_ENERGY_COST` — the reproduction cost is still deducted; only the
child's half-share is added back. -/
theorem c1_abort_amended (c : Cell) (r : SplitRand)
    (h : c.energy / 2 - SPLIT_ENERGY_COST / 2 < 5) :
    (split c r).1.energy = c.energy - SPLIT_ENERGY_COST ∧ (split c r).2 = none := by
  constructor
  · simp only [split]
    rw [if_pos h]
    show c.energy / 2 - SPLIT_ENERGY_COST / 2 + (c.energy / 2 - SPLIT_ENERGY_COST / 2)
        = c.energy - SPLIT_ENERGY_COST
    ring
  · simp only [split]
    rw [if_pos h]

/-- Witness for `c1_abort_amended` at `cellD` (energy 30). -/
theorem c1_abort_amended_witness :
    (split cellD splitRandD).1.energy = cellD.energy - SPLIT_ENERGY_COST ∧
      (split cellD splitRandD).2 = none :=
  c1_abort_amended cellD splitRandD (by norm_num [cellD, SPLIT_ENERGY_COST])

/-- Claim C5: calling `split` on a cell with energy exactly 60 succeeds,
producing a child with energy `max(5, 60/2 - 30/2) = 15` and leaving the
parent's energy at 15 as well. -/
theorem c5_split_success (c : Cell) (r : SplitRand) (h : c.energy = 60) :
    (split c r).1.energy = 15 ∧ (split c r).2.map Cell.energy = some 15 := by
  have hcond : ¬ (c.energy / 2 - SPLIT_ENERGY_COST / 2 < 5) := by
    rw [h]; norm_num [SPLIT_ENERGY_COST]
  constructor
  · simp only [split]
    rw [if_neg hcond]
    show c.energy / 2 - SPLIT_ENERGY_COST / 2 = 15
    rw [h]; norm_num [SPLIT_ENERGY_COST]
  · simp only [split]
    rw [if_neg hcond]
    show some (max 5 (c.energy / 2 - SPLIT_ENERGY_COST / 2)) = some 15
    rw [h]
    norm_num [SPLIT_ENERGY_COST]

/-- Witness for `c5_split_success` at `cellE` (energy 60). -/
theorem c5_split_success_witness :
    (split cellE splitRandD).1.energy = 15 ∧
      (split cellE splitRandD).2.map Cell.energy = some 15 :=
  c5_split_success cellE splitRandD (by norm_num [cellE, cellD])

/-- Claim C9: whenever `split` returns a child, the child's energy equals the
parent's post-call energy: on the success path the shared value
`energy/2 - SPLIT_ENERGY_COST/2` is at least 5, so `max 5 _` leaves it
unchanged. -/
theorem c9_child_parent_energy (c : Cell) (r : SplitRand) (p ch : Cell)
    (h : split c r = (p, some ch)) : ch.energy = p.energy := by
  by_cases hc : c.energy / 2 - SPLIT_ENERGY_COST / 2 < 5
  · simp only [split] at h
    rw [if_pos hc] at h
    injection h with h1 h2
    exact Option.noConfusion h2
  · simp only [split] at h
    rw [if_neg hc] at h
    injection h with h1 h2
    injection h2 with h2
    rw [← h1, ← h2]
    show max 5 (c.energy / 2 - SPLIT_ENERGY_COST / 2) = c.energy / 2 - SPLIT_ENERGY_COST / 2
    exact max_eq_right (le_of_not_lt hc)

/-- Witness for `c9_child_parent_energy` at `cellF` (energy 70). -/
theorem c9_child_parent_energy_witness :
    ((split cellF splitRandD).2.getD cellF).energy = (split cellF splitRandD).1.energy := by
  have hsome : ∃ ch, (split cellF splitRandD).2 = some ch := by
    simp only [split]
    rw [if_neg (by norm_num [cellF, cellD, SPLIT_ENERGY_COST])]
    exact ⟨_, rfl⟩
  obtain ⟨ch, hch⟩ := hsome
  have hpair : split cellF splitRandD = ((split cellF splitRandD).1, some ch) := by
    rw [← hch]
  rw [hch, Option.getD_some]
  exact c9_child_parent_energy cellF splitRandD _ ch hpair

end CellSim

namespace CellSim

/-! Projection lemmas for `update`: the eating branch only touches `energy`
and the food list, so every other field of the result agrees with `preEat`. -/

lemma update_x (c : Cell) (dt : ℝ) (foods : List Food) (r : UpdateRand) :
    (update c dt foods r).1.x = (preEat c dt foods r).x := by
  simp only [update]
  cases h : eatScan (preEat c dt foods r) foods <;> simp [h]

lemma update_y (c : Cell) (dt : ℝ) (foods : List Food) (r : UpdateRand) :
    (update c dt foods r).1.y = (preEat c dt foods r).y := by
  simp only [update]
  cases h : eatScan (preEat c dt foods r) foods <;> simp [h]

lemma update_angle (c : Cell) (dt : ℝ) (foods : List Food) (r : UpdateRand) :
    (update c dt foods r).1.angle = (preEat c dt foods r).angle := by
  simp only [update]
  cases h : eatScan (preEat c dt foods r) foods <;> simp [h]

lemma update_radius (c : Cell) (dt : ℝ) (foods : List Food) (r : UpdateRand) :
    (update c dt foods r).1.radius = c.radius := by
  simp only [update]
  cases h : eatScan (preEat c dt foods r) foods <;> simp [h, preEat]

lemma update_base_radius (c : Cell) (dt : ℝ) (foods : List Food) (r : UpdateRand) :
    (update c dt foods r).1.base_radius = c.base_radius := by
  simp only [update]
  cases h : eatScan (preEat c dt foods r) foods <;> simp [h, preEat]

lemma update_speed (c : Cell) (dt : ℝ) (foods : List Food) (r : UpdateRand) :
    (update c dt foods r).1.speed = c.speed := by
  simp only [update]
  cases h : eatScan (preEat c dt foods r) foods <;> simp [h, preEat]

lemma update_color (c : Cell) (dt : ℝ) (foods : List Food) (r : UpdateRand) :
    (update c dt foods r).1.color = c.color := by
  simp only [update]
  cases h : eatScan (preEat c dt foods r) foods <;> simp [h, preEat]

lemma update_time_offset (c : Cell) (dt : ℝ) (foods : List Food) (r : UpdateRand) :
    (update c dt foods r).1.time_offset = c.time_offset := by
  simp only [update]
  cases h : eatScan (preEat c dt foods r) foods <;> simp [h, preEat]

/-- Claim C10: `Cell.update` modifies only position, heading, energy and the
trail buffer; `radius`, `base_radius`, `speed`, `color` and `time_offset`
are unchanged by every call, for every input state. -/
theorem c10_update_frame (c : Cell) (dt : ℝ) (foods : List Food) (r : UpdateRand) :
    (update c dt foods r).1.radius = c.radius ∧
      (update c dt foods r).1.base_radius = c.base_radius ∧
      (update c dt foods r).1.speed = c.speed ∧
      (update c dt foods r).1.color = c.color ∧
      (update c dt foods r).1.time_offset = c.time_offset :=
  ⟨update_radius c dt foods r, update_base_radius c dt foods r, update_speed c dt foods r,
    update_color c dt foods r, update_time_offset c dt foods r⟩

/-- Claim C7: for every cell, tick duration, food list and random draw, the
position after `Cell.update` lies within `margin` of the world rectangle:
`margin ≤ x ≤ WIDTH - margin` and `margin ≤ y ≤ HEIGHT - margin`. -/
theorem c7_boundary_containment (c : Cell) (dt : ℝ) (foods : List Food) (r : UpdateRand) :
    margin ≤ (update c dt foods r).1.x ∧ (update c dt foods r).1.x ≤ WIDTH - margin ∧
      margin ≤ (update c dt foods r).1.y ∧ (update c dt foods r).1.y ≤ HEIGHT - margin := by
  rw [update_x, update_y]
  simp only [preEat]
  refine ⟨?_, ?_, ?_, ?_⟩ <;>
    · split_ifs <;> (norm_num [margin, WIDTH, HEIGHT] at *; try linarith)

/-! Energy bounds for `update`. -/

lemma decayClamp_le_max (e dt : ℝ) : decayClamp e dt ≤ MAX_ENERGY := by
  simp only [decayClamp]
  split_ifs with h
  · exact le_refl _
  · exact le_of_not_lt h

lemma update_energy_cases (c : Cell) (dt : ℝ) (foods : List Food) (r : UpdateRand) :
    (update c dt foods r).1.energy = decayClamp c.energy dt ∧
        (update c dt foods r).2.2 = false ∨
      (update c dt foods r).1.energy = decayClamp c.energy dt + ENERGY_FROM_FOOD ∧
        (update c dt foods r).2.2 = true := by
  simp only [update]
  cases h : eatScan (preEat c dt foods r) foods with
  | none => left; simp [h, preEat]
  | some fs => right; simp [h, preEat]

/-- Claim C2 (amended): after a tick in which the cell did not eat, its
energy is at most `MAX_ENERGY` (the clamp is applied after decay, before the
eating scan); if it ate, `ENERGY_FROM_FOOD` is added after the clamp, so the
energy can exceed `MAX_ENERGY`, but never by more than `ENERGY_FROM_FOOD`.
The excess is clamped away at the start of the cell's next update. -/
theorem c2_energy_bound_amended (c : Cell) (dt : ℝ) (foods : List Food) (r : UpdateRand) :
    (update c dt foods r).1.energy ≤ MAX_ENERGY + ENERGY_FROM_FOOD ∧
      ((update c dt foods r).2.2 = false → (update c dt foods r).1.energy ≤ MAX_ENERGY) := by
  have hff : (0 : ℝ) ≤ ENERGY_FROM_FOOD := by norm_num [ENERGY_FROM_FOOD]
  have hdc := decayClamp_le_max c.energy dt
  rcases update_energy_cases c dt foods r with ⟨he, hs⟩ | ⟨he, hs⟩
  · exact ⟨by rw [he]; linarith, fun _ => by rw [he]; exact hdc⟩
  · refine ⟨by rw [he]; linarith, fun hf => ?_⟩
    rw [hs] at hf
    exact absurd hf (by simp)

end CellSim

namespace CellSim

/-- Claim C3, counterexample: with 201 food items already present — more than
`MAX_FOOD = 200` — a mouse click still appends one more food item, so the
request is not ignored and the collection grows. -/
theorem c3_maxfood_counterexample :
    MAX_FOOD < (List.replicate 201 (Food.mk 0 0)).length ∧
      (spawnClick (List.replicate 201 (Food.mk 0 0)) 450 300).length ≠
        (List.replicate 201 (Food.mk 0 0)).length := by
  constructor
  · rw [List.length_replicate]
    norm_num [MAX_FOOD]
  · simp only [spawnClick, List.length_append, List.length_replicate,
      List.length_singleton]
    norm_num

/-- Claim C3 (amended): food-spawn requests are never ignored.  The mouse
handler appends exactly one food item and the F-key handler appends exactly
ten, regardless of how many food items already exist; `MAX_FOOD` is consulted
only by the commented-out auto-spawn block, not by the live handlers. -/
theorem c3_spawn_amended (foods : List Food) (mx my : ℝ) (ps : Fin 10 → ℝ × ℝ) :
    (spawnClick foods mx my).length = foods.length + 1 ∧
      (spawnKeyF foods ps).length = foods.length + 10 := by
  constructor
  · simp [spawnClick]
  · simp [spawnKeyF]

/-! Arithmetic facts about the angle helpers, used to evaluate `update` on
concrete inputs. -/

lemma pyMod_pi_two_pi : pyMod Real.pi (2 * Real.pi) = Real.pi := by
  have h2 : Real.pi / (2 * Real.pi) = 1 / 2 := by
    rw [div_eq_div_iff (by positivity) (by norm_num)]
    ring
  have h3 : Int.floor ((1 : ℝ) / 2) = 0 := by
    rw [Int.floor_eq_zero_iff]
    constructor <;> norm_num
  simp only [pyMod, h2, h3]
  norm_num

lemma wrapDiff_zero : wrapDiff 0 = 0 := by
  simp only [wrapDiff, zero_add, pyMod_pi_two_pi]
  ring

lemma pyAtan2_zero_pos (x : ℝ) (hx : 0 < x) : pyAtan2 0 x = 0 := by
  simp only [pyAtan2, if_pos hx, zero_div, Real.arctan_zero]

lemma pyAtan2_zero_neg (x : ℝ) (hx : x < 0) : pyAtan2 0 x = Real.pi := by
  simp only [pyAtan2]
  rw [if_neg (by linarith), if_pos hx, if_pos (le_refl (0 : ℝ))]
  rw [zero_div, Real.arctan_zero, zero_add]

end CellSim

namespace CellSim

/-! A concrete eating scenario: `cellA` sits at (450, 300) heading 0 with
speed 1 and energy 100; `foodA` lies straight ahead at (460, 300), inside
both the sense radius and, after the move to x = 451, the eating range. -/

noncomputable def cellA : Cell :=
  { x := 450
    y := 300
    radius := 8
    base_radius := 8
    angle := 0
    speed := 1
    energy := 100
    color := (100, 100, 100)
    trail := []
    time_offset := 0 }

noncomputable def foodA : Food := ⟨460, 300⟩

noncomputable def randA : UpdateRand :=
  { wander := 0, bounceLeft := 0, bounceRight := 0, bounceTop := 0, bounceBottom := 0 }

lemma senseA : senseTarget cellA [foodA] = some (foodA, 100) := by
  simp only [senseTarget, List.foldl]
  rw [if_pos (by norm_num [cellA, foodA, CELL_SENSE_RADIUS])]
  norm_num [cellA, foodA]

lemma steerA : steer cellA [foodA] randA = 0 := by
  have hat : pyAtan2 (foodA.y - cellA.y) (foodA.x - cellA.x) = 0 := by
    have hy : foodA.y - cellA.y = 0 := by norm_num [cellA, foodA]
    have hx : foodA.x - cellA.x = 10 := by norm_num [cellA, foodA]
    rw [hy, hx]
    exact pyAtan2_zero_pos 10 (by norm_num)
  simp only [steer, senseA, hat]
  have ha : cellA.angle = 0 := rfl
  rw [ha, show (0 : ℝ) - 0 = 0 from by ring, wrapDiff_zero]
  rw [show min CELL_MAX_TURN (0 : ℝ) = 0 from min_eq_right (by norm_num [CELL_MAX_TURN])]
  rw [show max (-CELL_MAX_TURN) (0 : ℝ) = 0 from max_eq_right (by norm_num [CELL_MAX_TURN])]
  ring

lemma preEatA : preEat cellA 1 [foodA] randA =
    { cellA with x := 451, y := 300, angle := 0, energy := 99, trail := [(451, 300)] } := by
  have hmx : moveX cellA 0 = 451 := by
    simp only [moveX, Real.cos_zero, cellA]
    norm_num
  have hmy : moveY cellA 0 = 300 := by
    simp only [moveY, Real.sin_zero, cellA]
    norm_num
  have h1 : ¬ (451 : ℝ) < margin := by norm_num [margin]
  have h2 : ¬ (451 : ℝ) > WIDTH - margin := by norm_num [margin, WIDTH]
  have h3 : ¬ (300 : ℝ) < margin := by norm_num [margin]
  have h4 : ¬ (300 : ℝ) > HEIGHT - margin := by norm_num [margin, HEIGHT]
  simp only [preEat, steerA, hmx, hmy, if_neg h1, if_neg h2, if_neg h3, if_neg h4]
  simp only [decayClamp, trailAppend]
  norm_num [cellA, ENERGY_LOSS_PER_SEC, MAX_ENERGY]

lemma updateA : update cellA 1 [foodA] randA =
    ({ cellA with x := 451, y := 300, angle := 0, energy := 119, trail := [(451, 300)] },
      [], true) := by
  have heat2 : eatScan
      { cellA with x := 451, y := 300, angle := 0, energy := 99, trail := [(451, 300)] }
      [foodA] = some [] := by
    simp only [eatScan]
    rw [if_pos (by norm_num [cellA, foodA, FOOD_RADIUS])]
  simp only [update, preEatA, heat2]
  norm_num [cellA, ENERGY_FROM_FOOD]

/-- Claim C2, counterexample: `cellA` starts the tick at the cap
`MAX_ENERGY = 100`, decays to 99, then eats `foodA`, ending the tick at
energy 119 — above `MAX_ENERGY`, because the eating bonus is added after the
clamp. -/
theorem c2_clamp_counterexample :
    (update cellA 1 [foodA] randA).2.2 = true ∧
      MAX_ENERGY < (update cellA 1 [foodA] randA).1.energy := by
  rw [updateA]
  constructor
  · rfl
  · norm_num [MAX_ENERGY]

end CellSim

namespace CellSim

lemma eatScan_one (c : Cell) (f : Food) :
    eatScan c [f] =
      if (f.x - c.x) ^ 2 + (f.y - c.y) ^ 2 ≤ (c.radius + FOOD_RADIUS) ^ 2
      then some [] else none := by
  simp only [eatScan]

lemma update_nil_foods (c : Cell) (dt : ℝ) (r : UpdateRand) :
    update c dt [] r = (preEat c dt [] r, [], false) := by
  simp only [update, eatScan]

/-- Claim C4: two cells share one food item in a single pass.  If the first
cell's eating check succeeds (its post-move position is within eating range
of the single food item `f`), it gains `ENERGY_FROM_FOOD` and removes `f`,
leaving the food list empty; the second cell, updated later in the same pass
against the food list left behind, cannot eat: its signal is `false`, it
gains no food energy, and nothing further is removed. -/
theorem c4_eating_exclusive (c1 c2 : Cell) (dt : ℝ) (f : Food) (r1 r2 : UpdateRand)
    (h : (f.x - (preEat c1 dt [f] r1).x) ^ 2 + (f.y - (preEat c1 dt [f] r1).y) ^ 2
      ≤ ((preEat c1 dt [f] r1).radius + FOOD_RADIUS) ^ 2) :
    (update c1 dt [f] r1).2.2 = true ∧
      (update c1 dt [f] r1).1.energy = decayClamp c1.energy dt + ENERGY_FROM_FOOD ∧
      (update c1 dt [f] r1).2.1 = [] ∧
      (update c2 dt (update c1 dt [f] r1).2.1 r2).2.2 = false ∧
      (update c2 dt (update c1 dt [f] r1).2.1 r2).1.energy = decayClamp c2.energy dt ∧
      (update c2 dt (update c1 dt [f] r1).2.1 r2).2.1 = [] := by
  have h1 : eatScan (preEat c1 dt [f] r1) [f] = some [] := by
    rw [eatScan_one, if_pos h]
  have hu1 : update c1 dt [f] r1 =
      ({ preEat c1 dt [f] r1 with
          energy := (preEat c1 dt [f] r1).energy + ENERGY_FROM_FOOD }, [], true) := by
    simp only [update, h1]
  rw [hu1]
  refine ⟨rfl, rfl, rfl, ?_, ?_, ?_⟩
  · rw [update_nil_foods]
  · rw [update_nil_foods]
    simp [preEat]
  · rw [update_nil_foods]

/-- A second concrete cell, far from `foodA`, for the eating-exclusivity
witness. -/
noncomputable def cellC : Cell :=
  { cellA with x := 100, y := 100, energy := 50 }

/-- Witness for `c4_eating_exclusive`: `cellA` eats `foodA` (its post-move
position is (451, 300), within range 12 of (460, 300)); `cellC`, updated
next against the emptied food list, does not eat. -/
theorem c4_eating_exclusive_witness :
    (update cellA 1 [foodA] randA).2.2 = true ∧
      (update cellA 1 [foodA] randA).1.energy = decayClamp cellA.energy 1 + ENERGY_FROM_FOOD ∧
      (update cellA 1 [foodA] randA).2.1 = [] ∧
      (update cellC 1 (update cellA 1 [foodA] randA).2.1 randA).2.2 = false ∧
      (update cellC 1 (update cellA 1 [foodA] randA).2.1 randA).1.energy
        = decayClamp cellC.energy 1 ∧
      (update cellC 1 (update cellA 1 [foodA] randA).2.1 randA).2.1 = [] :=
  c4_eating_exclusive cellA cellC 1 foodA randA randA
    (by rw [preEatA]; norm_num [cellA, foodA, FOOD_RADIUS])

end CellSim

namespace CellSim

lemma abs_clamp_le (d m : ℝ) (hm : 0 ≤ m) : |max (-m) (min m d)| ≤ m :=
  abs_le.mpr ⟨le_max_left _ _, max_le (by linarith) (min_le_left _ _)⟩

/-- Claim C6 (amended): if the cell senses a food target and its moved
position triggers no wall clamp (it stays inside the margins on all four
sides), then the heading after one update differs from the heading before by
at most `CELL_MAX_TURN`: the turn toward the target is the wrapped
difference clamped to `±CELL_MAX_TURN`, never an instant snap.  When a wall
clamp does fire, the heading is instead redrawn at random and the bound can
fail. -/
theorem c6_turn_bound_amended (c : Cell) (dt : ℝ) (foods : List Food) (r : UpdateRand)
    (td : Food × ℝ) (hsense : senseTarget c foods = some td)
    (hx1 : ¬ moveX c (steer c foods r) < margin)
    (hx2 : ¬ moveX c (steer c foods r) > WIDTH - margin)
    (hy1 : ¬ moveY c (steer c foods r) < margin)
    (hy2 : ¬ moveY c (steer c foods r) > HEIGHT - margin) :
    |(update c dt foods r).1.angle - c.angle| ≤ CELL_MAX_TURN := by
  have hang : (preEat c dt foods r).angle = steer c foods r := by
    simp only [preEat, if_neg hx1, if_neg hx2, if_neg hy1, if_neg hy2]
  rw [update_angle, hang]
  obtain ⟨t, d⟩ := td
  simp only [steer, hsense]
  have heq : c.angle + max (-CELL_MAX_TURN) (min CELL_MAX_TURN
        (wrapDiff (pyAtan2 (t.y - c.y) (t.x - c.x) - c.angle))) - c.angle
      = max (-CELL_MAX_TURN) (min CELL_MAX_TURN
        (wrapDiff (pyAtan2 (t.y - c.y) (t.x - c.x) - c.angle))) := by ring
  rw [heq]
  exact abs_clamp_le _ _ (by norm_num [CELL_MAX_TURN])

/-- Witness for `c6_turn_bound_amended`: `cellA` senses `foodA` straight
ahead, moves to (451, 300) without touching a wall, and its heading change
is 0 ≤ `CELL_MAX_TURN`. -/
theorem c6_turn_bound_witness :
    |(update cellA 1 [foodA] randA).1.angle - cellA.angle| ≤ CELL_MAX_TURN :=
  c6_turn_bound_amended cellA 1 [foodA] randA (foodA, 100) senseA
    (by rw [steerA]; norm_num [moveX, cellA, margin, Real.cos_zero])
    (by rw [steerA]; norm_num [moveX, cellA, margin, WIDTH, Real.cos_zero])
    (by rw [steerA]; norm_num [moveY, cellA, margin, Real.sin_zero])
    (by rw [steerA]; norm_num [moveY, cellA, margin, HEIGHT, Real.sin_zero])

/-! The wall-bounce scenario: `cellB` at (5.5, 300) heads along `pi` (straight
at the left wall) toward `foodB` at (1, 300), which it senses; the move takes
it to x = 4.5 < margin, so the clamp fires and redraws the heading (here the
bounce draw is 0), a change of `pi`. -/

noncomputable def cellB : Cell :=
  { x := 11 / 2
    y := 300
    radius := 8
    base_radius := 8
    angle := Real.pi
    speed := 1
    energy := 50
    color := (100, 100, 100)
    trail := []
    time_offset := 0 }

noncomputable def foodB : Food := ⟨1, 300⟩

lemma senseB : senseTarget cellB [foodB] = some (foodB, 81 / 4) := by
  simp only [senseTarget, List.foldl]
  rw [if_pos (by norm_num [cellB, foodB, CELL_SENSE_RADIUS])]
  norm_num [cellB, foodB]

lemma steerB : steer cellB [foodB] randA = Real.pi := by
  have hat : pyAtan2 (foodB.y - cellB.y) (foodB.x - cellB.x) = Real.pi := by
    have hy : foodB.y - cellB.y = 0 := by norm_num [cellB, foodB]
    have hx : foodB.x - cellB.x = -(9 / 2) := by norm_num [cellB, foodB]
    rw [hy, hx]
    exact pyAtan2_zero_neg _ (by norm_num)
  simp only [steer, senseB, hat]
  have ha : cellB.angle = Real.pi := rfl
  rw [ha, sub_self, wrapDiff_zero]
  rw [show min CELL_MAX_TURN (0 : ℝ) = 0 from min_eq_right (by norm_num [CELL_MAX_TURN])]
  rw [show max (-CELL_MAX_TURN) (0 : ℝ) = 0 from max_eq_right (by norm_num [CELL_MAX_TURN])]
  ring

lemma preEatB_angle : (preEat cellB 1 [foodB] randA).angle = 0 := by
  have hmx : moveX cellB Real.pi = 9 / 2 := by
    simp only [moveX, Real.cos_pi, cellB]
    norm_num
  have hmy : moveY cellB Real.pi = 300 := by
    simp only [moveY, Real.sin_pi, cellB]
    norm_num
  have h1 : (9 : ℝ) / 2 < margin := by norm_num [margin]
  have h2 : ¬ margin > WIDTH - margin := by norm_num [margin, WIDTH]
  have h3 : ¬ (300 : ℝ) < margin := by norm_num [margin]
  have h4 : ¬ (300 : ℝ) > HEIGHT - margin := by norm_num [margin, HEIGHT]
  simp only [preEat, steerB, hmx, hmy, if_pos h1, if_neg h2, if_neg h3, if_neg h4]
  rfl

/-- Claim C6, counterexample: `cellB` senses `foodB` (which lies directly
ahead, not behind — sensing is all the claim requires), yet after one update
its heading has changed from `pi` to the bounce draw 0, a change of
`pi > CELL_MAX_TURN`: the wall clamp redraws the heading without any turn
bound. -/
theorem c6_turn_counterexample :
    (senseTarget cellB [foodB]).isSome = true ∧
      CELL_MAX_TURN < |(update cellB 1 [foodB] randA).1.angle - cellB.angle| := by
  constructor
  · rw [senseB]
    rfl
  · rw [update_angle, preEatB_angle]
    have ha : cellB.angle = Real.pi := rfl
    rw [ha, zero_sub, abs_neg, abs_of_pos Real.pi_pos]
    rw [show CELL_MAX_TURN = (0.25 : ℝ) from rfl]
    linarith [Real.pi_gt_three]

end CellSim

namespace CellSim

/-- A child returned by `split` is never dead: its energy is `max 5 _ ≥ 5`
and its radius is `max CELL_MIN_RADIUS _ ≥ 8`. -/
lemma split_child_alive (c : Cell) (r : SplitRand) (q ch : Cell)
    (h : split c r = (q, some ch)) : ¬ isDead ch := by
  by_cases hc : c.energy / 2 - SPLIT_ENERGY_COST / 2 < 5
  · simp only [split] at h
    rw [if_pos hc] at h
    injection h with h1 h2
    exact Option.noConfusion h2
  · simp only [split] at h
    rw [if_neg hc] at h
    injection h with h1 h2
    injection h2 with h2
    rw [← h2]
    simp only [isDead, mkCell, not_or, not_le]
    constructor
    · exact lt_of_lt_of_le (by norm_num) (le_max_left _ _)
    · exact lt_of_lt_of_le (by norm_num [CELL_MIN_RADIUS]) (le_max_left _ _)

/-- Any child emitted by `processCell` is the child component of some
`split` call's result. -/
lemma processCell_child (dt : ℝ) (c : Cell) (foods : List Food) (r : TickRand) (ch : Cell)
    (h : (processCell dt c foods r).2.2 = some ch) :
    ∃ p s q, split p s = (q, some ch) := by
  simp only [processCell] at h
  split_ifs at h with hc
  exact ⟨(update c dt foods r.upd).1, r.spl,
    (split (update c dt foods r.upd).1 r.spl).1, by rw [← h]⟩

/-- Every cell in the `children` side buffer of a pass is exactly the child
returned by some `split` call: children are collected, never re-updated. -/
lemma runPass_children (dt : ℝ) (cells : List Cell) (foods : List Food)
    (rs : ℕ → TickRand) (i : ℕ) (ch : Cell)
    (h : ch ∈ (runPass dt cells foods rs i).children) :
    ∃ p s q, split p s = (q, some ch) := by
  revert h
  induction cells generalizing foods i with
  | nil =>
    intro h
    simp [runPass] at h
  | cons c rest ih =>
    intro h
    simp only [runPass] at h
    rw [List.mem_append] at h
    rcases h with h | h
    · rcases ho : (processCell dt c foods (rs i)).2.2 with _ | ch2
      · rw [ho] at h
        simp at h
      · rw [ho] at h
        simp at h
        rw [h]
        exact processCell_child dt c foods (rs i) ch2 ho
    · exact ih _ _ h

lemma mem_filter_not_dead (l : List Cell) (c : Cell)
    (h : c ∈ l.filter fun c => !(decide (isDead c))) : ¬ isDead c := by
  rw [List.mem_filter] at h
  simpa using h.2

/-- Claim C8: the non-paused tick is two-phase.  The resulting cell list is
exactly the updated originals that are not dead, with the children collected
during the pass appended afterwards; every cell in the result is alive
(the dead are removed before the next tick, and split children are born
alive); and every child equals the output of a `split` call — it is never
passed through `update` in its birth tick. -/
theorem c8_two_phase (dt : ℝ) (cells : List Cell) (foods : List Food) (rs : ℕ → TickRand) :
    (tick dt cells foods rs).1
        = ((runPass dt cells foods rs 0).updated.filter fun c => !(decide (isDead c)))
          ++ (runPass dt cells foods rs 0).children ∧
      (∀ c ∈ (tick dt cells foods rs).1, ¬ isDead c) ∧
      (∀ ch ∈ (runPass dt cells foods rs 0).children, ∃ p s q, split p s = (q, some ch)) := by
  refine ⟨rfl, ?_, ?_⟩
  · intro c hc
    have hc2 : c ∈ ((runPass dt cells foods rs 0).updated.filter
        fun c => !(decide (isDead c))) ++ (runPass dt cells foods rs 0).children := hc
    rw [List.mem_append] at hc2
    rcases hc2 with hc2 | hc2
    · exact mem_filter_not_dead _ _ hc2
    · obtain ⟨p, s, q, hsp⟩ := runPass_children dt cells foods rs 0 c hc2
      exact split_child_alive p s q c hsp
  · intro ch hch
    exact runPass_children dt cells foods rs 0 ch hch

end CellSim

namespace CellSim

/-! A concrete one-cell tick with no food: `cellW` (energy 50) wanders one
step to (451, 300), loses 1 energy, cannot split (49 < 60, and its trial
draw 1 fails the 2% test anyway) and stays alive. -/

noncomputable def cellW : Cell := { cellA with energy := 50 }

noncomputable def rsW : ℕ → TickRand := fun _ => ⟨randA, 1, splitRandD⟩

/-- The state of `cellW` after its update in the `tickW` scenario. -/
noncomputable def cellW1 : Cell :=
  { cellW with x := 451, y := 300, angle := 0, energy := 49, trail := [(451, 300)] }

lemma steerW : steer cellW [] randA = 0 := by
  simp only [steer, senseTarget, List.foldl]
  norm_num [cellW, cellA, randA]

lemma preEatW : preEat cellW 1 [] randA = cellW1 := by
  have hmx : moveX cellW 0 = 451 := by
    simp only [moveX, Real.cos_zero, cellW, cellA]
    norm_num
  have hmy : moveY cellW 0 = 300 := by
    simp only [moveY, Real.sin_zero, cellW, cellA]
    norm_num
  have h1 : ¬ (451 : ℝ) < margin := by norm_num [margin]
  have h2 : ¬ (451 : ℝ) > WIDTH - margin := by norm_num [margin, WIDTH]
  have h3 : ¬ (300 : ℝ) < margin := by norm_num [margin]
  have h4 : ¬ (300 : ℝ) > HEIGHT - margin := by norm_num [margin, HEIGHT]
  simp only [preEat, steerW, hmx, hmy, if_neg h1, if_neg h2, if_neg h3, if_neg h4]
  simp only [decayClamp, trailAppend, cellW1]
  norm_num [cellW, cellA, ENERGY_LOSS_PER_SEC, MAX_ENERGY]

lemma updateW : update cellW 1 [] randA = (cellW1, [], false) := by
  rw [update_nil_foods, preEatW]

lemma tickW : tick 1 [cellW] [] rsW = ([cellW1], [], 0) := by
  have hcs : ¬ (canSplit cellW1 ∧ (1 : ℝ) < 0.02) := fun hand => absurd hand.2 (by norm_num)
  have hp : processCell 1 cellW [] (rsW 0) = (cellW1, [], none) := by
    simp only [processCell, rsW, updateW]
    rw [if_neg hcs]
  have hr : runPass 1 [cellW] [] rsW 0 = ⟨[cellW1], [], [], 0⟩ := by
    simp [runPass, hp]
  have hnd : ¬ isDead cellW1 := by
    simp only [isDead, cellW1, cellW, cellA, not_or, not_le]
    norm_num
  have hb : (!(decide (isDead cellW1))) = true := by simp [hnd]
  simp only [tick, hr]
  simp [List.filter_cons, hb]

/-- Witness for `c8_two_phase`: in the concrete one-cell tick, the surviving
cell `cellW1` is a member of the resulting collection and is not dead. -/
theorem c8_two_phase_witness : ¬ isDead cellW1 :=
  (c8_two_phase 1 [cellW] [] rsW).2.1 cellW1 (by rw [tickW]; simp)

/-- Witness for `c2_energy_bound_amended`: `cellW` does not eat in its
update (there is no food), so its post-tick energy is at most `MAX_ENERGY`. -/
theorem c2_energy_bound_witness : (update cellW 1 [] randA).1.energy ≤ MAX_ENERGY :=
  (c2_energy_bound_amended cellW 1 [] randA).2 (by rw [updateW])

end CellSim
